import Mathlib

/-!
Shallow embedding of the annotation-from-secret operator (src/main.rs).

The program is a Kubernetes controller that substitutes `$key$` placeholder
tokens inside ingress annotation values with values drawn from a named
secret, keeping a JSON journal of pre-substitution originals in a reserved
state annotation.  Rust `BTreeMap<String, String>` values are modelled as
association lists kept in ascending key order (`Smap`); Rust byte strings
are `List Nat`; every `unwrap` that can fail is modelled by an explicit
`panicked` outcome.
-/

set_option autoImplicit false

/-- Does the character list `s` start with the pattern `p`?
Mirrors byte-wise matching of Rust `str::starts_with`; on valid UTF-8,
byte-level and code-point-level matching coincide. -/
def startsWithL : List Char → List Char → Bool
  | [], _ => true
  | _ :: _, [] => false
  | p :: ps, c :: cs => p == c && startsWithL ps cs

/-- Substring containment on character lists, Rust `str::contains`. -/
def containsSubL (pat : List Char) : List Char → Bool
  | [] => startsWithL pat []
  | c :: rest => startsWithL pat (c :: rest) || containsSubL pat rest

/-- Replace every leftmost non-overlapping occurrence of `pat` by `rep`,
Rust `str::replace`.  `fuel` bounds recursion; each step consumes at least
one character when `pat` is non-empty, so `fuel = s.length` is exact.
Call sites only pass the non-empty pattern `"$" ++ key ++ "$"`. -/
def replaceAllFuel (pat rep : List Char) : Nat → List Char → List Char
  | _, [] => []
  | 0, s => s
  | fuel + 1, c :: rest =>
    if !pat.isEmpty && startsWithL pat (c :: rest) then
      rep ++ replaceAllFuel pat rep fuel (List.drop (pat.length - 1) rest)
    else
      c :: replaceAllFuel pat rep fuel rest

/-- Rust `str::contains` on `String`. -/
def strContains (s pat : String) : Bool :=
  containsSubL pat.data s.data

/-- Rust `str::replace` on `String`. -/
def strReplace (s pat rep : String) : String :=
  ⟨replaceAllFuel pat.data rep.data s.data.length s.data⟩

/-- Model of `BTreeMap<String, String>`: an association list in ascending
key order.  Iteration order of the list is the map's iteration order. -/
abbrev Smap := List (String × String)

/-- Lookup, `BTreeMap::get`. -/
def smapFind? : Smap → String → Option String
  | [], _ => none
  | (k, v) :: rest, q => if k = q then some v else smapFind? rest q

/-- Key membership, `BTreeMap::contains_key`. -/
def smapContains (m : Smap) (k : String) : Bool :=
  (smapFind? m k).isSome

/-- Strict lexicographic order on character lists. -/
def charListLt : List Char → List Char → Bool
  | [], [] => false
  | [], _ :: _ => true
  | _ :: _, [] => false
  | c :: cs, d :: ds => c.toNat < d.toNat || (c == d && charListLt cs ds)

/-- Code-point lexicographic order on strings, which coincides with the
UTF-8 byte order Rust's `Ord for String` uses. -/
def strLtB (a b : String) : Bool :=
  charListLt a.data b.data

/-- Ordered insert replacing an existing binding, `BTreeMap::insert`. -/
def smapInsert : Smap → String → String → Smap
  | [], k, v => [(k, v)]
  | (k', v') :: rest, k, v =>
    if strLtB k k' then (k, v) :: (k', v') :: rest
    else if k = k' then (k, v) :: rest
    else (k', v') :: smapInsert rest k v

/-- Prepend a decoded character to an optional tail. -/
def consOpt (c : Char) : Option (List Char) → Option (List Char)
  | some l => some (c :: l)
  | none => none

/-- Is `b` a UTF-8 continuation byte? -/
def isCont (b : Nat) : Bool :=
  0x80 ≤ b && b ≤ 0xBF

/-- Strict UTF-8 decoding of a byte sequence, the semantics of Rust
`String::from_utf8`: rejects overlong encodings, surrogates and values
above U+10FFFF.  Returns `none` exactly when Rust returns `Err`. -/
def utf8DecodeChars : List Nat → Option (List Char)
  | [] => some []
  | b :: rest =>
    if b ≤ 0x7F then
      consOpt (Char.ofNat b) (utf8DecodeChars rest)
    else
      match rest with
      | [] => none
      | c1 :: rest1 =>
        if 0xC2 ≤ b && b ≤ 0xDF then
          if isCont c1 then
            consOpt (Char.ofNat ((b - 0xC0) * 0x40 + (c1 - 0x80))) (utf8DecodeChars rest1)
          else none
        else
          match rest1 with
          | [] => none
          | c2 :: rest2 =>
            if 0xE0 ≤ b && b ≤ 0xEF then
              let okC1 : Bool :=
                if b == 0xE0 then 0xA0 ≤ c1 && c1 ≤ 0xBF
                else if b == 0xED then 0x80 ≤ c1 && c1 ≤ 0x9F
                else isCont c1
              if okC1 && isCont c2 then
                consOpt (Char.ofNat ((b - 0xE0) * 0x1000 + (c1 - 0x80) * 0x40 + (c2 - 0x80)))
                  (utf8DecodeChars rest2)
              else none
            else
              match rest2 with
              | [] => none
              | c3 :: rest3 =>
                if 0xF0 ≤ b && b ≤ 0xF4 then
                  let okC1 : Bool :=
                    if b == 0xF0 then 0x90 ≤ c1 && c1 ≤ 0xBF
                    else if b == 0xF4 then 0x80 ≤ c1 && c1 ≤ 0x8F
                    else isCont c1
                  if okC1 && isCont c2 && isCont c3 then
                    consOpt
                      (Char.ofNat ((b - 0xF0) * 0x40000 + (c1 - 0x80) * 0x1000 +
                        (c2 - 0x80) * 0x40 + (c3 - 0x80)))
                      (utf8DecodeChars rest3)
                  else none
                else none

/-- Rust `String::from_utf8`, `none` modelling the `Err` case. -/
def utf8Decode (bytes : List Nat) : Option String :=
  match utf8DecodeChars bytes with
  | some l => some ⟨l⟩
  | none => none

/-- Lowercase hexadecimal digit, as emitted by serde_json. -/
def hexDigit (n : Nat) : Char :=
  if n < 10 then Char.ofNat (48 + n) else Char.ofNat (87 + n)

/-- JSON string escaping as serde_json performs it when serializing:
quote, backslash and control characters are escaped, everything else is
emitted verbatim. -/
def jsonEscapeChar (c : Char) : List Char :=
  if c = '"' then ['\\', '"']
  else if c = '\\' then ['\\', '\\']
  else if c = '\x08' then ['\\', 'b']
  else if c = '\x09' then ['\\', 't']
  else if c = '\x0A' then ['\\', 'n']
  else if c = '\x0C' then ['\\', 'f']
  else if c = '\x0D' then ['\\', 'r']
  else if c.toNat < 0x20 then
    ['\\', 'u', '0', '0', hexDigit (c.toNat / 16), hexDigit (c.toNat % 16)]
  else [c]

/-- Escape a whole string for JSON output. -/
def jsonEscape (s : String) : String :=
  ⟨s.data.foldr (fun c acc => jsonEscapeChar c ++ acc) []⟩

/-- One serialized JSON object member. -/
def jsonMember (kv : String × String) : String :=
  "\"" ++ jsonEscape kv.1 ++ "\":\"" ++ jsonEscape kv.2 ++ "\""

/-- serde_json serialization of a `BTreeMap<String, String>`
(`serde_json::to_string`): an object whose members appear in ascending key
order, which is the order of the `Smap` list. -/
def serializeJournal (m : Smap) : String :=
  "\x7b" ++ String.intercalate "," (m.map jsonMember) ++ "\x7d"

/-- JSON insignificant whitespace. -/
def isJsonWs (c : Char) : Bool :=
  c == ' ' || c == '\x09' || c == '\x0A' || c == '\x0D'

/-- Skip leading JSON whitespace. -/
def skipWs : List Char → List Char
  | [] => []
  | c :: rest => if isJsonWs c then skipWs rest else c :: rest

/-- Value of one hexadecimal digit character. -/
def hexVal? (c : Char) : Option Nat :=
  if '0' ≤ c && c ≤ '9' then some (c.toNat - 48)
  else if 'a' ≤ c && c ≤ 'f' then some (c.toNat - 87)
  else if 'A' ≤ c && c ≤ 'F' then some (c.toNat - 55)
  else none

/-- Parse the body of a JSON string (the input starts right after the
opening quote); returns the decoded content and the remaining input after
the closing quote.  Handles the standard escapes; a `\uXXXX` escape is
decoded as a single code point (surrogate values are rejected, a
simplification of serde_json's surrogate-pair handling that no input in
this development exercises).  Raw control characters are rejected, as
serde_json rejects them. -/
def parseJStringBody : List Char → Option (List Char × List Char)
  | [] => none
  | c :: rest =>
    if c = '"' then some ([], rest)
    else if c = '\\' then
      match rest with
      | [] => none
      | e :: rest1 =>
        if e = '"' || e = '\\' || e = '/' then
          match parseJStringBody rest1 with
          | some (l, r) => some (e :: l, r)
          | none => none
        else if e = 'b' then
          match parseJStringBody rest1 with
          | some (l, r) => some ('\x08' :: l, r)
          | none => none
        else if e = 't' then
          match parseJStringBody rest1 with
          | some (l, r) => some ('\x09' :: l, r)
          | none => none
        else if e = 'n' then
          match parseJStringBody rest1 with
          | some (l, r) => some ('\x0A' :: l, r)
          | none => none
        else if e = 'f' then
          match parseJStringBody rest1 with
          | some (l, r) => some ('\x0C' :: l, r)
          | none => none
        else if e = 'r' then
          match parseJStringBody rest1 with
          | some (l, r) => some ('\x0D' :: l, r)
          | none => none
        else if e = 'u' then
          match rest1 with
          | h1 :: h2 :: h3 :: h4 :: rest2 =>
            match hexVal? h1, hexVal? h2, hexVal? h3, hexVal? h4 with
            | some a, some b, some c2, some d =>
              let v := a * 0x1000 + b * 0x100 + c2 * 0x10 + d
              if 0xD800 ≤ v && v ≤ 0xDFFF then none
              else
                match parseJStringBody rest2 with
                | some (l, r) => some (Char.ofNat v :: l, r)
                | none => none
            | _, _, _, _ => none
          | _ => none
        else none
    else if c.toNat < 0x20 then none
    else
      match parseJStringBody rest with
      | some (l, r) => some (c :: l, r)
      | none => none

/-- Parse one `"key" : "value"` member starting at `cs`. -/
def parsePair (cs : List Char) : Option (String × String × List Char) :=
  match skipWs cs with
  | '"' :: r1 =>
    match parseJStringBody r1 with
    | some (key, r2) =>
      match skipWs r2 with
      | ':' :: r3 =>
        match skipWs r3 with
        | '"' :: r4 =>
          match parseJStringBody r4 with
          | some (val, r5) => some (⟨key⟩, ⟨val⟩, r5)
          | none => none
        | _ => none
      | _ => none
    | none => none
  | _ => none

/-- Parse the members of a JSON object after its opening brace, folding
them into `acc` with last-wins semantics, exactly how serde_json
deserializes into a `BTreeMap`.  The whole input must be consumed. -/
def parseObjectBody : Nat → Smap → List Char → Option Smap
  | 0, _, _ => none
  | fuel + 1, acc, cs =>
    match parsePair cs with
    | none => none
    | some (k, v, rest) =>
      match skipWs rest with
      | ',' :: r2 => parseObjectBody fuel (smapInsert acc k v) r2
      | '\x7d' :: r2 => if (skipWs r2).isEmpty then some (smapInsert acc k v) else none
      | _ => none

/-- Model of `serde_json::from_str::<BTreeMap<String, String>>`: `none`
exactly when deserialization fails (the `result.is_ok()` check on
line 88 of main.rs). -/
def parseJournal (s : String) : Option Smap :=
  match skipWs s.data with
  | '\x7b' :: r1 =>
    match skipWs r1 with
    | '\x7d' :: r2 => if (skipWs r2).isEmpty then some [] else none
    | _ => parseObjectBody (s.data.length + 1) [] r1
  | _ => none

/-- The trigger annotation key, `SECRET_ANNOTATION` (main.rs line 21). -/
def secretNameKey : String := "kirillorlov.pro/annotationsFromSecretName"

/-- The state (journal) annotation key, `SECRET_ANNOTATION_STATE`
(main.rs line 22). -/
def secretStateKey : String := "kirillorlov.pro/annotationsFromSecretState"

/-- The platform bookkeeping key skipped on main.rs line 94. -/
def lastAppliedKey : String := "kubectl.kubernetes.io/last-applied-configuration"

/-- A secret snapshot: optional `data` (byte-valued) and optional
`string_data` maps, both iterated in ascending key order. -/
structure Secret where
  data : Option (List (String × List Nat))
  stringData : Option Smap
  deriving DecidableEq

/-- An ingress snapshot: the metadata fields the program touches.
`nspace` is `metadata.namespace`, `name` is `metadata.name`, `annots`
is `metadata.annotations`. -/
structure Ingress where
  nspace : Option String
  name : Option String
  annots : Option Smap
  deriving DecidableEq

/-- Decode all `data` entries into `acc` (main.rs lines 69-72).  The Rust
loop calls `String::from_utf8(..).unwrap()` on every value; the panic on
an undecodable value is modelled by `none`, which absorbs the rest of the
fold. -/
def decodeData : List (String × List Nat) → Option Smap → Option Smap
  | [], acc => acc
  | e :: rest, acc =>
    decodeData rest
      (match acc, utf8Decode e.2 with
       | some m, some str => some (smapInsert m e.1 str)
       | _, _ => none)

/-- Build the replacement set from the secret (main.rs lines 65-79):
all `data` entries UTF-8-decoded, then all `string_data` entries, which
overwrite `data` entries of the same key.  `none` models the panic on an
undecodable `data` value. -/
def buildReplacements (secret : Secret) : Option Smap :=
  let fromData :=
    match secret.data with
    | none => some []
    | some entries => decodeData entries (some [])
  match fromData with
  | none => none
  | some m =>
    match secret.stringData with
    | none => some m
    | some entries => some (List.foldl (fun m2 kv => smapInsert m2 kv.1 kv.2) m entries)

/-- The journal decoded from the state annotation (main.rs lines 84-91):
absent state annotation, or a value that fails to deserialize, both yield
the empty journal. -/
def decodeJournal (annots : Smap) : Smap :=
  match smapFind? annots secretStateKey with
  | some s =>
    match parseJournal s with
    | some m => m
    | none => []
  | none => []

/-- The inner replacement loop for one annotation (main.rs lines
101-118).  For each replacement entry in ascending key order the base
(`original_value`) is the journal entry for this key when present,
otherwise the live value; note the replacement is applied to that base
each iteration, not to the accumulated result, and the staged maps are
overwritten on every match whose result differs from the live value. -/
def stagePair (replacements oldItems : Smap) (key value : String)
    (acc : Smap × Smap) : Smap × Smap :=
  match replacements with
  | [] => acc
  | rkv :: rest =>
    let x := "$" ++ rkv.1 ++ "$"
    let originalValue :=
      match smapFind? oldItems key with
      | some o => o
      | none => value
    let acc2 :=
      if strContains originalValue x then
        let replacedValue := strReplace originalValue x rkv.2
        if replacedValue ≠ value then
          (smapInsert acc.1 key replacedValue, smapInsert acc.2 key originalValue)
        else acc
      else acc
    stagePair rest oldItems key value acc2

/-- The outer annotation loop (main.rs lines 93-119) over the remaining
annotation entries: the last-applied key and the state key are skipped
(`continue`), every other entry runs the inner replacement loop. -/
def stageLoopAux (replacements oldItems : Smap) :
    Smap → Smap × Smap → Smap × Smap
  | [], acc => acc
  | kv :: rest, acc =>
    if kv.1 = lastAppliedKey then stageLoopAux replacements oldItems rest acc
    else if kv.1 = secretStateKey then stageLoopAux replacements oldItems rest acc
    else stageLoopAux replacements oldItems rest
      (stagePair replacements oldItems kv.1 kv.2 acc)

/-- The whole staging computation (main.rs lines 81-119): the result is
`(updated_annotations, old_values)`, both empty at the start. -/
def stageLoop (annots replacements oldItems : Smap) : Smap × Smap :=
  stageLoopAux replacements oldItems annots ([], [])

/-- The staging part of `apply` (main.rs lines 64-119), up to the point
where the staged change set is inspected.  `none` models a panic: an
undecodable `data` value (line 70) or absent annotations (line 85). -/
def applyStaged (ing : Ingress) (secret : Secret) : Option (Smap × Smap) :=
  match buildReplacements secret with
  | none => none
  | some replacements =>
    match ing.annots with
    | none => none
    | some annots => some (stageLoop annots replacements (decodeJournal annots))

/-- Result of `apply`: `ok 0` = no staged changes, nothing patched;
`ok 1` = a patch was submitted and accepted; `err` = the patch call
failed and the error was propagated; `panicked` = an `unwrap` failed. -/
inductive ApplyResult where
  | panicked
  | ok (code : Int)
  | err
  deriving DecidableEq

/-- `apply` (main.rs lines 64-145).  `patchOk` stands for the outcome of
the external patch call on line 135. -/
def apply (ing : Ingress) (secret : Secret) (patchOk : Bool) : ApplyResult :=
  match applyStaged ing secret with
  | none => .panicked
  | some (updated, _oldValues) =>
    if updated.length = 0 then .ok 0
    else
      match ing.name with
      | none => .panicked
      | some _ => if patchOk then .ok 1 else .err

/-- The annotation map submitted in the merge patch when the staged set
is non-empty (main.rs lines 121-132): the staged annotations plus the
serialized journal under the state key.  `none` when no patch is
submitted or staging panicked. -/
def patchedAnnots (ing : Ingress) (secret : Secret) : Option Smap :=
  match applyStaged ing secret with
  | none => none
  | some (updated, oldValues) =>
    if updated.length = 0 then none
    else some (smapInsert updated secretStateKey (serializeJournal oldValues))

/-- Effect of a merge patch on the live annotation map: patched keys
overlay existing ones. -/
def mergeAnnots (live patch : Smap) : Smap :=
  List.foldl (fun m kv => smapInsert m kv.1 kv.2) live patch

/-- The controller action returned to the framework. -/
inductive SchedAction where
  | awaitChange
  | requeue (seconds : Nat)
  deriving DecidableEq

/-- Result of `reconcile`: `ok` wraps the returned action, `err` is a
propagated `Err` (handed to `error_policy` by the framework), and
`panicked` models a failed `unwrap`. -/
inductive ReconcileResult where
  | ok (action : SchedAction)
  | err
  | panicked
  deriving DecidableEq

/-- `reconcile` (main.rs lines 24-62).  `fetchSecret ns name` stands for
the secret GET in namespace `ns`; `none` is a fetch failure.  The
namespace `unwrap` on line 44 is the modelled panic. -/
def reconcile (ing : Ingress) (fetchSecret : String → String → Option Secret)
    (patchOk : Bool) : ReconcileResult :=
  match ing.annots with
  | none => .ok .awaitChange
  | some annots =>
    match smapFind? annots secretNameKey with
    | none => .ok .awaitChange
    | some secretName =>
      match ing.nspace with
      | none => .panicked
      | some ns =>
        match fetchSecret ns secretName with
        | none => .err
        | some secret =>
          match apply ing secret patchOk with
          | .ok _ => .ok (.requeue 300)
          | .err => .err
          | .panicked => .panicked

/-- `error_policy` (main.rs lines 171-173): every propagated reconcile
error is retried after 60 seconds. -/
def error_policy : SchedAction := .requeue 60

/-- Fixture: live annotation map with one multi-placeholder value. -/
def annsC1 : Smap := [("example", "$A$-$B$"), (secretNameKey, "mysecret")]

/-- Fixture: ingress carrying `annsC1`. -/
def ingC1 : Ingress := ⟨some "default", some "demo", some annsC1⟩

/-- Fixture: secret with `data` entries A = "1", B = "2". -/
def secretAB : Secret := ⟨some [("A", [0x31]), ("B", [0x32])], none⟩

/-- Fixture: the annotation patch the first reconcile of `ingC1` against
`secretAB` submits. -/
def patchC1 : Smap :=
  [("example", "$A$-2"), (secretStateKey, "\x7b\"example\":\"$A$-$B$\"\x7d")]

/-- Fixture: annotation map with a journal entry for `a1` (no staged
change) and a fresh placeholder in `a2`. -/
def annsC2 : Smap :=
  [("a1", "xv"), ("a2", "$A$"), (secretNameKey, "mysecret"),
   (secretStateKey, "\x7b\"a1\":\"x$A$\"\x7d")]

/-- Fixture: ingress carrying `annsC2`. -/
def ingC2 : Ingress := ⟨some "default", some "demo", some annsC2⟩

/-- Fixture: secret with one `data` entry A = "v". -/
def secretV : Secret := ⟨some [("A", [0x76])], none⟩

/-- Fixture: annotation map for the basic-substitution scenario. -/
def annsC7 : Smap := [("example", "prefix-$FOO$-suffix"), (secretNameKey, "mysecret")]

/-- Fixture: ingress carrying `annsC7`. -/
def ingC7 : Ingress := ⟨some "default", some "demo", some annsC7⟩

/-- Fixture: secret with `data` entry FOO = "bar". -/
def secretFooBar : Secret := ⟨some [("FOO", [0x62, 0x61, 0x72])], none⟩

/-- Fixture: the rotation scenario: already-substituted live value plus
the journal recorded by the previous reconcile. -/
def annsC8 : Smap :=
  [("example", "prefix-bar-suffix"), (secretNameKey, "mysecret"),
   (secretStateKey, "\x7b\"example\":\"prefix-$FOO$-suffix\"\x7d")]

/-- Fixture: ingress carrying `annsC8`. -/
def ingC8 : Ingress := ⟨some "default", some "demo", some annsC8⟩

/-- Fixture: secret with `data` entry FOO = "baz". -/
def secretFooBaz : Secret := ⟨some [("FOO", [0x62, 0x61, 0x7A])], none⟩

/-- Fixture: annotation map whose state annotation is not valid JSON. -/
def annsC9 : Smap := [(secretNameKey, "mysecret"), (secretStateKey, "not json")]

/-- Fixture: ingress carrying `annsC9`. -/
def ingC9 : Ingress := ⟨some "default", some "demo", some annsC9⟩

/-- Fixture: minimal opted-in ingress. -/
def ingC5 : Ingress := ⟨some "default", some "demo", some [(secretNameKey, "mysecret")]⟩

/-- Fixture: secret whose `data` value 0xFF is not valid UTF-8. -/
def secretBad : Secret := ⟨some [("FOO", [0xFF])], none⟩

/-- Fixture: fetch handle returning `secretBad`. -/
def fetchBad : String → String → Option Secret := fun _ _ => some secretBad

/-- Fixture: ingress with no annotation map at all. -/
def ingNoAnns : Ingress := ⟨some "default", some "demo", none⟩

/-- Fixture: ingress with annotations but no trigger annotation. -/
def ingNoTrigger : Ingress := ⟨some "default", some "demo", some [("a", "b")]⟩

/-- Fixture: opted-in ingress whose namespace field is absent. -/
def ingNoNs : Ingress := ⟨none, some "demo", some [(secretNameKey, "mysecret")]⟩

/-- Fixture: fetch handle that always fails. -/
def fetchNone : String → String → Option Secret := fun _ _ => none

/-- Fixture: fetch handle returning `secretAB`. -/
def fetchAB : String → String → Option Secret := fun _ _ => some secretAB

/-- Fixture: opted-in ingress in another namespace, for the invalid-UTF-8
general theorem. -/
def ingC5w : Ingress := ⟨some "prod", some "web", some [(secretNameKey, "s1")]⟩

/-- Fixture: secret whose second `data` value starts with a lone
continuation byte 0x80, hence is not valid UTF-8. -/
def secretBad2 : Secret := ⟨some [("A", [0x61]), ("B", [0x80])], some [("C", "c")]⟩

/-- Fixture: fetch handle returning `secretBad2`. -/
def fetchBad2 : String → String → Option Secret := fun _ _ => some secretBad2

/-- Inserting under key `k` leaves lookups of any other key unchanged. -/
theorem smapFind?_insert_ne (m : Smap) (k v q : String) (h : k ≠ q) :
    smapFind? (smapInsert m k v) q = smapFind? m q := by
  induction m with
  | nil => simp [smapInsert, smapFind?, h]
  | cons kv rest ih =>
    obtain ⟨k', v'⟩ := kv
    by_cases hlt : strLtB k k' = true
    · simp [smapInsert, hlt, smapFind?, h]
    · by_cases heq : k = k'
      · subst heq
        simp [smapInsert, hlt, smapFind?, h]
      · simp [smapInsert, hlt, heq, smapFind?, ih]

/-- The inner replacement loop only ever inserts under `key`: lookups of
any other key in either staged map are unchanged. -/
theorem stagePair_preserves (oldItems : Smap) (key value q : String) (h : key ≠ q)
    (replacements : Smap) :
    ∀ acc : Smap × Smap,
      smapFind? (stagePair replacements oldItems key value acc).1 q = smapFind? acc.1 q ∧
      smapFind? (stagePair replacements oldItems key value acc).2 q = smapFind? acc.2 q := by
  induction replacements with
  | nil => intro acc; exact ⟨rfl, rfl⟩
  | cons rkv rest ih =>
    intro acc
    simp only [stagePair]
    split_ifs with h1 h2
    · exact ⟨((ih _).1).trans (smapFind?_insert_ne _ key _ q h),
             ((ih _).2).trans (smapFind?_insert_ne _ key _ q h)⟩
    · exact ih acc
    · exact ih acc

/-- Keys skipped by the outer loop never appear in either staged map. -/
theorem stageLoopAux_reserved (replacements oldItems : Smap) (q : String)
    (hq : q = lastAppliedKey ∨ q = secretStateKey) (annots : Smap) :
    ∀ acc : Smap × Smap,
      smapFind? acc.1 q = none → smapFind? acc.2 q = none →
      smapFind? (stageLoopAux replacements oldItems annots acc).1 q = none ∧
      smapFind? (stageLoopAux replacements oldItems annots acc).2 q = none := by
  induction annots with
  | nil => intro acc h1 h2; exact ⟨h1, h2⟩
  | cons kv rest ih =>
    intro acc h1 h2
    simp only [stageLoopAux]
    split_ifs with hl hs
    · exact ih acc h1 h2
    · exact ih acc h1 h2
    · have hkq : kv.1 ≠ q := by
        rcases hq with h | h <;> subst h
        · exact hl
        · exact hs
      obtain ⟨p1, p2⟩ := stagePair_preserves oldItems kv.1 kv.2 q hkq replacements acc
      exact ih _ (p1.trans h1) (p2.trans h2)

/-- Decoding from an already-failed accumulator stays failed. -/
theorem decodeData_none (entries : List (String × List Nat)) :
    decodeData entries none = none := by
  induction entries with
  | nil => rfl
  | cons e rest ih =>
    cases h : utf8Decode e.2 <;> simp [decodeData, h, ih]

/-- One undecodable `data` value makes the whole decode fail (the Rust
loop panics at that entry). -/
theorem decodeData_invalid (k : String) (bytes : List Nat)
    (hdec : utf8Decode bytes = none) :
    ∀ (entries : List (String × List Nat)), (k, bytes) ∈ entries →
      ∀ acc, decodeData entries acc = none := by
  intro entries
  induction entries with
  | nil => intro h; cases h
  | cons e rest ih =>
    intro hmem acc
    rcases List.mem_cons.mp hmem with heq | hmem'
    · cases acc with
      | none => simp [decodeData, decodeData_none]
      | some m => simp [decodeData, ← heq, hdec, decodeData_none]
    · exact ih hmem' _

/-- One undecodable `data` value fails the replacement-set build. -/
theorem buildReplacements_invalid (secret : Secret)
    (entries : List (String × List Nat)) (k : String) (bytes : List Nat)
    (hdata : secret.data = some entries) (hmem : (k, bytes) ∈ entries)
    (hdec : utf8Decode bytes = none) :
    buildReplacements secret = none := by
  simp [buildReplacements, hdata, decodeData_invalid k bytes hdec entries hmem]

/-- Claim C1 (code divergence): the spec claims that for secret
`\x7bA: "1", B: "2"\x7d` and annotation `"$A$-$B$"` one substitution pass
stages the fully substituted `"1-2"`, applying all matching replacement
entries cumulatively.  The code instead applies every replacement entry
to the base independently (main.rs line 111 always starts from
`original_value`), and the staged entry is overwritten on each match, so
the last matching key wins: the staged value is `"$A$-2"`, not `"1-2"`.
The single journal entry holding the literal original `"$A$-$B$"` is
staged as claimed. -/
theorem c1_substitution_not_cumulative :
    applyStaged ingC1 secretAB =
      some ([("example", "$A$-2")], [("example", "$A$-$B$")]) ∧
    ("$A$-2" : String) ≠ "1-2" := by decide

/-- Claim C2 (code divergence): the spec claims the journal written under
the state key is the merge of the previously persisted journal with the
newly staged entries, preserving entries with no staged change.  The code
serializes only `old_values`, the newly staged entries (main.rs line
125): here the live journal holds `a1 -> "x$A$"`, `a1` has no staged
change this reconcile, `a2` is staged, and the newly written journal is
`\x7b"a2":"$A$"\x7d`, which has no `a1` entry — the existing entry is
dropped. -/
theorem c2_journal_not_merged :
    decodeJournal annsC2 = [("a1", "x$A$")] ∧
    applyStaged ingC2 secretV = some ([("a2", "v")], [("a2", "$A$")]) ∧
    patchedAnnots ingC2 secretV =
      some [("a2", "v"), (secretStateKey, "\x7b\"a2\":\"$A$\"\x7d")] ∧
    parseJournal "\x7b\"a2\":\"$A$\"\x7d" = some [("a2", "$A$")] ∧
    smapFind? [("a2", "$A$")] "a1" = none := by decide

/-- Claim C3, counterexample: the claim says the inspected substitution
targets exclude exactly the trigger annotation, the state annotation and
the last-applied key.  The outer loop (main.rs lines 93-99) skips only
the latter two: an ingress whose trigger annotation value is `"$A$"`
gets that very annotation substituted to `"v"` and staged for update,
with a journal entry, refuting the claim. -/
theorem c3_trigger_key_staged :
    applyStaged ⟨some "default", some "demo", some [(secretNameKey, "$A$")]⟩ secretV =
      some ([(secretNameKey, "v")], [(secretNameKey, "$A$")]) := by decide

/-- Claim C3, amended: the set of annotations inspected as substitution
targets excludes exactly the state annotation and the platform's
last-applied-configuration key; neither ever appears in the staged
annotation updates or in the staged journal entries.  (The trigger
annotation is not excluded, per the counterexample.) -/
theorem c3_amended_two_reserved_keys_excluded (annots replacements oldItems : Smap) :
    smapFind? (stageLoop annots replacements oldItems).1 lastAppliedKey = none ∧
    smapFind? (stageLoop annots replacements oldItems).1 secretStateKey = none ∧
    smapFind? (stageLoop annots replacements oldItems).2 lastAppliedKey = none ∧
    smapFind? (stageLoop annots replacements oldItems).2 secretStateKey = none := by
  obtain ⟨ha, hb⟩ := stageLoopAux_reserved replacements oldItems lastAppliedKey
    (Or.inl rfl) annots ([], []) rfl rfl
  obtain ⟨hc, hd⟩ := stageLoopAux_reserved replacements oldItems secretStateKey
    (Or.inr rfl) annots ([], []) rfl rfl
  exact ⟨ha, hc, hb, hd⟩

/-- Claim C4 (code divergence): the spec claims reconciling the same
ingress+secret pair twice with no intervening edits stages zero changes
and performs no patch on the second run.  Continuing from the C1 input:
the first run patches `example` to `"$A$-2"` and records the journal;
on the resulting state the second run stages `example = "1-$B$"` — a
non-empty staged set — and `apply` performs another patch (`ok 1`,
main.rs line 138).  The system in fact oscillates between `"$A$-2"` and
`"1-$B$"` and never converges. -/
theorem c4_second_run_patches_again :
    patchedAnnots ingC1 secretAB = some patchC1 ∧
    applyStaged ⟨some "default", some "demo", some (mergeAnnots annsC1 patchC1)⟩ secretAB =
      some ([("example", "1-$B$")], [("example", "$A$-$B$")]) ∧
    apply ⟨some "default", some "demo", some (mergeAnnots annsC1 patchC1)⟩ secretAB true =
      .ok 1 := by decide

/-- Claim C5, counterexample: the claim says a non-UTF-8 `data` entry
makes the reconcile fail with a propagated, resource-scoped error (the
short-retry outcome) and that no condition is fatal to the process.  The
code calls `String::from_utf8(..).unwrap()` (main.rs line 70): on a
secret whose `data` value is the invalid byte 0xFF the reconcile
panics — a process-level abort, not the propagated `err` outcome. -/
theorem c5_invalid_utf8_not_error_outcome :
    reconcile ingC5 fetchBad true = .panicked ∧
    ReconcileResult.panicked ≠ ReconcileResult.err := by decide

/-- Claim C5, amended: if any `data` entry of the fetched secret is not
valid UTF-8, the reconcile for that resource panics (an ungraceful,
process-fatal `unwrap`) rather than returning a propagated error
outcome; the entry is not skipped and no partial replacement set is
applied. -/
theorem c5_amended_invalid_utf8_panics (ing : Ingress) (annots : Smap)
    (nm ns : String) (fetchSecret : String → String → Option Secret) (patchOk : Bool)
    (secret : Secret) (entries : List (String × List Nat)) (k : String) (bytes : List Nat)
    (h1 : ing.annots = some annots)
    (h2 : smapFind? annots secretNameKey = some nm)
    (h3 : ing.nspace = some ns)
    (h4 : fetchSecret ns nm = some secret)
    (h5 : secret.data = some entries)
    (h6 : (k, bytes) ∈ entries)
    (h7 : utf8Decode bytes = none) :
    reconcile ing fetchSecret patchOk = .panicked := by
  have hbr := buildReplacements_invalid secret entries k bytes h5 h6 h7
  simp [reconcile, h1, h2, h3, h4, apply, applyStaged, hbr]

/-- Witness for the amended claim C5 at a concrete input: an opted-in
ingress whose secret holds the undecodable value `[0x80]` under key
`B`. -/
theorem c5_amended_invalid_utf8_panics_witness :
    reconcile ingC5w fetchBad2 true = .panicked :=
  c5_amended_invalid_utf8_panics ingC5w [(secretNameKey, "s1")] "s1" "prod"
    fetchBad2 true secretBad2 [("A", [0x61]), ("B", [0x80])] "B" [0x80]
    rfl (by decide) rfl rfl rfl (by decide) (by decide)

/-- Claim C6: the reconcile entry point maps outcomes exactly as the spec
states — no annotations, or annotations without the trigger key, return
`await_change` (no timer requeue); a successful `apply` (with or without
staged changes, any `ok` code) returns a 300-second requeue; a secret
fetch failure or a patch failure propagates an error, and the error
policy requeues after 60 seconds. -/
theorem c6_scheduling_contract :
    (∀ (ing : Ingress) (fetchSecret : String → String → Option Secret) (patchOk : Bool),
      ing.annots = none → reconcile ing fetchSecret patchOk = .ok .awaitChange) ∧
    (∀ (ing : Ingress) (annots : Smap) (fetchSecret : String → String → Option Secret)
        (patchOk : Bool),
      ing.annots = some annots → smapFind? annots secretNameKey = none →
      reconcile ing fetchSecret patchOk = .ok .awaitChange) ∧
    (∀ (ing : Ingress) (annots : Smap) (nm ns : String)
        (fetchSecret : String → String → Option Secret) (patchOk : Bool),
      ing.annots = some annots → smapFind? annots secretNameKey = some nm →
      ing.nspace = some ns → fetchSecret ns nm = none →
      reconcile ing fetchSecret patchOk = .err) ∧
    (∀ (ing : Ingress) (annots : Smap) (nm ns : String)
        (fetchSecret : String → String → Option Secret) (patchOk : Bool)
        (secret : Secret) (code : Int),
      ing.annots = some annots → smapFind? annots secretNameKey = some nm →
      ing.nspace = some ns → fetchSecret ns nm = some secret →
      apply ing secret patchOk = .ok code →
      reconcile ing fetchSecret patchOk = .ok (.requeue 300)) ∧
    (∀ (ing : Ingress) (annots : Smap) (nm ns : String)
        (fetchSecret : String → String → Option Secret) (patchOk : Bool)
        (secret : Secret),
      ing.annots = some annots → smapFind? annots secretNameKey = some nm →
      ing.nspace = some ns → fetchSecret ns nm = some secret →
      apply ing secret patchOk = .err →
      reconcile ing fetchSecret patchOk = .err) ∧
    error_policy = SchedAction.requeue 60 := by
  refine ⟨?_, ?_, ?_, ?_, ?_, rfl⟩
  · intro ing f p h1; simp [reconcile, h1]
  · intro ing annots f p h1 h2; simp [reconcile, h1, h2]
  · intro ing annots nm ns f p h1 h2 h3 h4; simp [reconcile, h1, h2, h3, h4]
  · intro ing annots nm ns f p secret code h1 h2 h3 h4 h5
    simp [reconcile, h1, h2, h3, h4, h5]
  · intro ing annots nm ns f p secret h1 h2 h3 h4 h5
    simp [reconcile, h1, h2, h3, h4, h5]

/-- Witness for claim C6: each branch of the scheduling contract at a
concrete input. -/
theorem c6_scheduling_contract_witness :
    reconcile ingNoAnns fetchNone true = .ok .awaitChange ∧
    reconcile ingNoTrigger fetchNone true = .ok .awaitChange ∧
    reconcile ingC5 fetchNone true = .err ∧
    reconcile ingC1 fetchAB true = .ok (.requeue 300) ∧
    reconcile ingC1 fetchAB false = .err ∧
    error_policy = SchedAction.requeue 60 :=
  ⟨c6_scheduling_contract.1 ingNoAnns fetchNone true rfl,
   c6_scheduling_contract.2.1 ingNoTrigger [("a", "b")] fetchNone true rfl (by decide),
   c6_scheduling_contract.2.2.1 ingC5 [(secretNameKey, "mysecret")] "mysecret" "default"
     fetchNone true rfl (by decide) rfl rfl,
   c6_scheduling_contract.2.2.2.1 ingC1 annsC1 "mysecret" "default" fetchAB true
     secretAB 1 rfl (by decide) rfl rfl (by decide),
   c6_scheduling_contract.2.2.2.2.1 ingC1 annsC1 "mysecret" "default" fetchAB false
     secretAB rfl (by decide) rfl rfl (by decide),
   c6_scheduling_contract.2.2.2.2.2⟩

/-- Claim C7: with secret `\x7bFOO: "bar"\x7d`, annotation
`example = "prefix-$FOO$-suffix"` and no prior journal, one reconcile
stages `example = "prefix-bar-suffix"` and a journal entry mapping
`example` to the original `"prefix-$FOO$-suffix"`; the submitted patch
carries both. -/
theorem c7_basic_substitution :
    applyStaged ingC7 secretFooBar =
      some ([("example", "prefix-bar-suffix")], [("example", "prefix-$FOO$-suffix")]) ∧
    patchedAnnots ingC7 secretFooBar =
      some [("example", "prefix-bar-suffix"),
            (secretStateKey, "\x7b\"example\":\"prefix-$FOO$-suffix\"\x7d")] := by decide

/-- Claim C8: after a prior substitution journaled
`example -> "prefix-$FOO$-suffix"` and with the live value already
substituted to `"prefix-bar-suffix"`, rotating the secret's FOO to
`"baz"` makes the next reconcile stage `example = "prefix-baz-suffix"`,
computed from the journaled original (no corrupted concatenation), and
re-stage the unchanged journal entry `"prefix-$FOO$-suffix"`. -/
theorem c8_rotation_uses_journal_base :
    applyStaged ingC8 secretFooBaz =
      some ([("example", "prefix-baz-suffix")], [("example", "prefix-$FOO$-suffix")]) := by
  decide

/-- Claim C9: when the state annotation is present but its value fails to
deserialize, the reconcile does not abort: staging proceeds exactly as
with an empty journal, so every annotation's base is its current live
value. -/
theorem c9_malformed_journal_degrades (ing : Ingress) (annots : Smap) (secret : Secret)
    (replacements : Smap) (s : String)
    (h1 : ing.annots = some annots)
    (h2 : smapFind? annots secretStateKey = some s)
    (h3 : parseJournal s = none)
    (h4 : buildReplacements secret = some replacements) :
    applyStaged ing secret = some (stageLoop annots replacements []) := by
  simp [applyStaged, h4, h1, decodeJournal, h2, h3]

/-- Witness for claim C9 at a concrete input: a state annotation holding
the unparsable text `"not json"`. -/
theorem c9_malformed_journal_degrades_witness :
    applyStaged ingC9 secretV = some (stageLoop annsC9 [("A", "v")] []) :=
  c9_malformed_journal_degrades ingC9 annsC9 secretV [("A", "v")] "not json"
    rfl (by decide) (by decide) (by decide)

/-- Claim C10: for every ingress carrying the trigger annotation,
reconcile unconditionally dereferences the metadata namespace field
(main.rs line 44) before fetching the secret; when that field is absent
the result is a panic, not one of the ordinary outcomes — the operation
is total only under the precondition that the namespace is present. -/
theorem c10_missing_namespace_panics (ing : Ingress) (annots : Smap) (nm : String)
    (fetchSecret : String → String → Option Secret) (patchOk : Bool)
    (h1 : ing.annots = some annots)
    (h2 : smapFind? annots secretNameKey = some nm)
    (h3 : ing.nspace = none) :
    reconcile ing fetchSecret patchOk = .panicked := by
  simp [reconcile, h1, h2, h3]

/-- Witness for claim C10 at a concrete input: an opted-in ingress whose
namespace field is `none`. -/
theorem c10_missing_namespace_panics_witness :
    reconcile ingNoNs fetchAB true = .panicked :=
  c10_missing_namespace_panics ingNoNs [(secretNameKey, "mysecret")] "mysecret"
    fetchAB true rfl (by decide) rfl
